import Mathlib

/-!
Verification of the membership lifecycle orchestration logic of
`pcs/cluster.py` (cluster setup configuration generation, option parsing,
quorum safety guards, node add/remove transactions, and the node start
convergence waiter).  Python dictionaries holding command-line options are
embedded as association lists; functions that perform I/O are embedded as
pure decision functions over the data those calls would return, or as
functions producing the ordered list of operations they would issue.
-/

namespace PcsCluster

/-- JSON-style values appearing in a node status mapping, with Python
truthiness. -/
inductive JVal
  | jbool (b : Bool)
  | jstr (s : String)
  | jnum (n : Int)
  | jnull
deriving DecidableEq

/-- Python truthiness of a status value. -/
def JVal.truthy : JVal → Bool
  | .jbool b => b
  | .jstr s => !(s == "")
  | .jnum n => !(n == 0)
  | .jnull => false

/-- A node status mapping (the dictionary decoded from a status response). -/
abbrev StatusMap := List (String × JVal)

/-- Embedding of `is_node_fully_started` (cluster.py lines 925-930): the
node is fully started when the mapping has both the "online" and "pending"
keys, "online" is truthy and "pending" is falsy. -/
def is_node_fully_started (node_status : StatusMap) : Bool :=
  (node_status.lookup "online").isSome && (node_status.lookup "pending").isSome
    && ((node_status.lookup "online").getD .jnull).truthy
    && !(((node_status.lookup "pending").getD .jnull).truthy)

/-- A dictionary key access that raises KeyError when the key is missing,
as Python subscripting does. -/
def attemptLookup (node_status : StatusMap) (key : String) : Except String JVal :=
  match node_status.lookup key with
  | some v => Except.ok v
  | none => Except.error "KeyError"

/-- Evaluation of the body of `is_node_fully_started` with Python
short-circuit semantics and raising subscript access made explicit: the
membership tests guard the subscript accesses, so a missing key yields
`ok false`, never an error. -/
def is_node_fully_started_checked (node_status : StatusMap) : Except String Bool :=
  if (node_status.lookup "online").isSome = false then Except.ok false
  else if (node_status.lookup "pending").isSome = false then Except.ok false
  else
    match attemptLookup node_status "online" with
    | Except.error e => Except.error e
    | Except.ok v =>
      if v.truthy = false then Except.ok false
      else
        match attemptLookup node_status "pending" with
        | Except.error e => Except.error e
        | Except.ok w => Except.ok (!w.truthy)

/-- The status codes of `getPacemakerNodeStatus` on which
`wait_for_remote_node_started` gives up immediately (HTTP error,
permission denied, unable to auth). -/
def remoteFatalCode (c : Nat) : Bool :=
  c == 1 || c == 3 || c == 4

/-- One iteration's worth of observed input for
`wait_for_remote_node_started`: the status code and output of
`getPacemakerNodeStatus`, the JSON decode of the output (`none` when
`json.loads` raises), and whether the deadline had passed when the
iteration checked it. -/
structure RemotePoll where
  code : Nat
  output : String
  parsed : Option StatusMap
  timeExceeded : Bool
deriving DecidableEq

/-- Embedding of `wait_for_remote_node_started` (cluster.py lines 948-965)
over the sequence of per-iteration observations.  Codes 1, 3 and 4 return
immediately; code 0 with an undecodable payload returns immediately; a
converged status returns success; anything else retries until the
deadline check fires.  `none` means the modelled observation horizon
ended with the loop still polling. -/
def wait_for_remote_node_started : List RemotePoll → Option (Nat × String)
  | [] => none
  | p :: rest =>
    if remoteFatalCode p.code then some (1, p.output)
    else if p.code == 0 then
      match p.parsed with
      | none => some (1, "Unable to get node status")
      | some st =>
        if is_node_fully_started st then some (0, "Started")
        else if p.timeExceeded then some (1, "Waiting timeout")
        else wait_for_remote_node_started rest
    else if p.timeExceeded then some (1, "Waiting timeout")
    else wait_for_remote_node_started rest

/-- One iteration's worth of observed input for
`wait_for_local_node_started`: the local node status (`none` when
`get_local_node_status` raises a library error), the message of that
error, and whether the deadline had passed. -/
structure LocalPoll where
  status : Option StatusMap
  errMsg : String
  timeExceeded : Bool
deriving DecidableEq

/-- Embedding of `wait_for_local_node_started` (cluster.py lines 932-946):
a library error while querying status returns immediately; a converged
status returns success; otherwise the loop retries until the deadline
check fires. -/
def wait_for_local_node_started : List LocalPoll → Option (Nat × String)
  | [] => none
  | p :: rest =>
    match p.status with
    | none => some (1, "Unable to get node status: " ++ p.errMsg)
    | some st =>
      if is_node_fully_started st then some (0, "Started")
      else if p.timeExceeded then some (1, "Waiting timeout")
      else wait_for_local_node_started rest

/-- A remote poll observation on which the waiter keeps waiting: the code
is not one of the immediately-fatal ones, and when the query succeeded the
decoded status is present but not yet fully started. -/
def remoteRetryableUnstarted (p : RemotePoll) : Bool :=
  !(remoteFatalCode p.code) &&
    (if p.code == 0 then
      match p.parsed with
      | some st => !(is_node_fully_started st)
      | none => false
    else true)

/-- A local poll observation on which the waiter keeps waiting. -/
def localRetryableUnstarted (p : LocalPoll) : Bool :=
  match p.status with
  | some st => !(is_node_fully_started st)
  | none => false

theorem wait_remote_retryable_timeout :
    ∀ ps : List RemotePoll,
      (∀ q ∈ ps, remoteRetryableUnstarted q = true) →
      (∃ q ∈ ps, q.timeExceeded = true) →
      wait_for_remote_node_started ps = some (1, "Waiting timeout") := by
  intro ps
  induction ps with
  | nil =>
    intro _ hex
    simp at hex
  | cons p rest ih =>
    intro hall hex
    obtain ⟨c, out, par, tex⟩ := p
    have hp := hall _ (List.mem_cons_self _ rest)
    have hallr : ∀ q ∈ rest, remoteRetryableUnstarted q = true :=
      fun q hq => hall q (by simp [hq])
    have hexr : tex = true ∨ ∃ q ∈ rest, q.timeExceeded = true := by
      rcases hex with ⟨q, hq, hqt⟩
      rcases List.mem_cons.mp hq with hq | hq
      · exact Or.inl (by rw [hq] at hqt; exact hqt)
      · exact Or.inr ⟨q, hq, hqt⟩
    have hfat : remoteFatalCode c = false := by
      cases h : remoteFatalCode c
      · rfl
      · simp [remoteRetryableUnstarted, h] at hp
    by_cases hc : c = 0
    · subst hc
      cases par with
      | none => simp [remoteRetryableUnstarted, hfat] at hp
      | some st =>
        have hns : is_node_fully_started st = false := by
          simpa [remoteRetryableUnstarted, hfat] using hp
        cases tex with
        | true => simp [wait_for_remote_node_started, hfat, hns]
        | false =>
          rw [show wait_for_remote_node_started
              ({ code := 0, output := out, parsed := some st, timeExceeded := false } :: rest)
              = wait_for_remote_node_started rest by
            simp [wait_for_remote_node_started, hfat, hns]]
          apply ih hallr
          rcases hexr with h | h
          · exact absurd h (by simp)
          · exact h
    · cases tex with
      | true => simp [wait_for_remote_node_started, hfat, hc]
      | false =>
        rw [show wait_for_remote_node_started
            ({ code := c, output := out, parsed := par, timeExceeded := false } :: rest)
            = wait_for_remote_node_started rest by
          simp [wait_for_remote_node_started, hfat, hc]]
        apply ih hallr
        rcases hexr with h | h
        · exact absurd h (by simp)
        · exact h

theorem wait_remote_retryable_step (p : RemotePoll) (rest : List RemotePoll)
    (h : remoteRetryableUnstarted p = true) (ht : p.timeExceeded = false) :
    wait_for_remote_node_started (p :: rest) = wait_for_remote_node_started rest := by
  obtain ⟨c, out, par, tex⟩ := p
  have htex : tex = false := ht
  subst htex
  have hfat : remoteFatalCode c = false := by
    cases hx : remoteFatalCode c
    · rfl
    · simp [remoteRetryableUnstarted, hx] at h
  by_cases hc : c = 0
  · subst hc
    cases par with
    | none => simp [remoteRetryableUnstarted, hfat] at h
    | some st =>
      have hns : is_node_fully_started st = false := by
        simpa [remoteRetryableUnstarted, hfat] using h
      simp [wait_for_remote_node_started, hfat, hns]
  · simp [wait_for_remote_node_started, hfat, hc]

theorem wait_local_retryable_timeout :
    ∀ ps : List LocalPoll,
      (∀ q ∈ ps, localRetryableUnstarted q = true) →
      (∃ q ∈ ps, q.timeExceeded = true) →
      wait_for_local_node_started ps = some (1, "Waiting timeout") := by
  intro ps
  induction ps with
  | nil =>
    intro _ hex
    simp at hex
  | cons p rest ih =>
    intro hall hex
    obtain ⟨st?, msg, tex⟩ := p
    have hp := hall _ (List.mem_cons_self _ rest)
    have hallr : ∀ q ∈ rest, localRetryableUnstarted q = true :=
      fun q hq => hall q (by simp [hq])
    have hexr : tex = true ∨ ∃ q ∈ rest, q.timeExceeded = true := by
      rcases hex with ⟨q, hq, hqt⟩
      rcases List.mem_cons.mp hq with hq | hq
      · exact Or.inl (by rw [hq] at hqt; exact hqt)
      · exact Or.inr ⟨q, hq, hqt⟩
    cases st? with
    | none => simp [localRetryableUnstarted] at hp
    | some st =>
      have hns : is_node_fully_started st = false := by
        simpa [localRetryableUnstarted] using hp
      cases tex with
      | true => simp [wait_for_local_node_started, hns]
      | false =>
        rw [show wait_for_local_node_started
            ({ status := some st, errMsg := msg, timeExceeded := false } :: rest)
            = wait_for_local_node_started rest by
          simp [wait_for_local_node_started, hns]]
        apply ih hallr
        rcases hexr with h | h
        · exact absurd h (by simp)
        · exact h

/-- C6: the convergence waiter times out at the deadline when the
convergence predicate never becomes true; it returns promptly (at the very
poll, independently of the deadline) on a non-retryable error (HTTP error,
permission denied, unable to auth, or an undecodable status payload); all
other failures are retried; the local waiter behaves the same for a
library error while querying status. -/
theorem convergence_waiter_deadline_and_fatal :
    ∀ (ps rest : List RemotePoll) (p : RemotePoll)
      (lp : LocalPoll) (lrest lps : List LocalPoll),
      ((∀ q ∈ ps, remoteRetryableUnstarted q = true) →
        (∃ q ∈ ps, q.timeExceeded = true) →
        wait_for_remote_node_started ps = some (1, "Waiting timeout"))
      ∧ (remoteFatalCode p.code = true →
          wait_for_remote_node_started (p :: rest) = some (1, p.output))
      ∧ (p.code = 0 → p.parsed = none →
          wait_for_remote_node_started (p :: rest)
            = some (1, "Unable to get node status"))
      ∧ (remoteRetryableUnstarted p = true → p.timeExceeded = false →
          wait_for_remote_node_started (p :: rest)
            = wait_for_remote_node_started rest)
      ∧ (lp.status = none →
          wait_for_local_node_started (lp :: lrest)
            = some (1, "Unable to get node status: " ++ lp.errMsg))
      ∧ ((∀ q ∈ lps, localRetryableUnstarted q = true) →
          (∃ q ∈ lps, q.timeExceeded = true) →
          wait_for_local_node_started lps = some (1, "Waiting timeout")) := by
  intro ps rest p lp lrest lps
  refine ⟨wait_remote_retryable_timeout ps, ?_, ?_, ?_, ?_, wait_local_retryable_timeout lps⟩
  · intro h
    obtain ⟨c, out, par, tex⟩ := p
    simp only [wait_for_remote_node_started]
    rw [if_pos (by simpa using h)]
  · intro h0 hn
    obtain ⟨c, out, par, tex⟩ := p
    have hc : c = 0 := h0
    subst hc
    have hpar : par = none := hn
    subst hpar
    simp [wait_for_remote_node_started, remoteFatalCode]
  · exact wait_remote_retryable_step p rest
  · intro h
    obtain ⟨st?, msg, tex⟩ := lp
    have hs : st? = none := h
    subst hs
    simp [wait_for_local_node_started]

theorem convergence_waiter_deadline_and_fatal_witness :
    wait_for_remote_node_started
        [{ code := 2, output := "refused", parsed := none, timeExceeded := false },
         { code := 2, output := "refused", parsed := none, timeExceeded := true }]
      = some (1, "Waiting timeout")
    ∧ wait_for_remote_node_started
        [{ code := 3, output := "denied", parsed := none, timeExceeded := false }]
      = some (1, "denied")
    ∧ wait_for_remote_node_started
        [{ code := 0, output := "bad json", parsed := none, timeExceeded := false }]
      = some (1, "Unable to get node status")
    ∧ wait_for_local_node_started
        [{ status := none, errMsg := "boom", timeExceeded := false }]
      = some (1, "Unable to get node status: boom") :=
  ⟨(convergence_waiter_deadline_and_fatal
      [{ code := 2, output := "refused", parsed := none, timeExceeded := false },
       { code := 2, output := "refused", parsed := none, timeExceeded := true }]
      [] { code := 0, output := "", parsed := none, timeExceeded := false }
      { status := none, errMsg := "", timeExceeded := false } [] []).1
      (by decide) (by decide),
   (convergence_waiter_deadline_and_fatal []
      [] { code := 3, output := "denied", parsed := none, timeExceeded := false }
      { status := none, errMsg := "", timeExceeded := false } [] []).2.1
      (by decide),
   (convergence_waiter_deadline_and_fatal []
      [] { code := 0, output := "bad json", parsed := none, timeExceeded := false }
      { status := none, errMsg := "", timeExceeded := false } [] []).2.2.1
      rfl rfl,
   (convergence_waiter_deadline_and_fatal [] [] { code := 0, output := "", parsed := none, timeExceeded := false }
      { status := none, errMsg := "boom", timeExceeded := false } [] []).2.2.2.2.1
      rfl⟩

/-- C10: `is_node_fully_started` is total over arbitrary status mappings:
evaluating its body with Python short-circuit semantics never raises; it
returns true exactly when both keys are present with "online" truthy and
"pending" falsy; a mapping missing either key yields false, and the
remote waiter retries (rather than crashing) on such a not-yet-converged
status. -/
theorem is_node_fully_started_total :
    ∀ (ns : StatusMap) (out : String) (ps : List RemotePoll),
      is_node_fully_started_checked ns = Except.ok (is_node_fully_started ns)
      ∧ (is_node_fully_started ns = true ↔
          ∃ v w, ns.lookup "online" = some v ∧ v.truthy = true
            ∧ ns.lookup "pending" = some w ∧ w.truthy = false)
      ∧ ((ns.lookup "online" = none ∨ ns.lookup "pending" = none) →
          is_node_fully_started ns = false)
      ∧ (is_node_fully_started ns = false →
          wait_for_remote_node_started
              ({ code := 0, output := out, parsed := some ns, timeExceeded := false } :: ps)
            = wait_for_remote_node_started ps) := by
  intro ns out ps
  refine ⟨?_, ?_, ?_, ?_⟩
  · unfold is_node_fully_started is_node_fully_started_checked attemptLookup
    cases h1 : ns.lookup "online" with
    | none => simp [h1]
    | some v =>
      cases h2 : ns.lookup "pending" with
      | none => simp [h1, h2]
      | some w =>
        cases hv : v.truthy <;> simp [h1, h2, hv]
  · unfold is_node_fully_started
    cases h1 : ns.lookup "online" with
    | none => simp [h1]
    | some v =>
      cases h2 : ns.lookup "pending" with
      | none => simp [h1, h2]
      | some w =>
        cases hv : v.truthy <;> cases hw : w.truthy <;> simp [h1, h2, hv, hw]
  · intro h
    unfold is_node_fully_started
    rcases h with h | h <;> simp [h]
  · intro h
    apply wait_remote_retryable_step
    · simp [remoteRetryableUnstarted, remoteFatalCode, h]
    · rfl

theorem is_node_fully_started_total_witness :
    is_node_fully_started [("online", JVal.jbool true)] = false :=
  (is_node_fully_started_total [("online", JVal.jbool true)] "" []).2.2.1
    (Or.inr rfl)

/-- The command-line option dictionary (`utils.pcs_options`): an
association list from option name to value. -/
abbrev Options := List (String × String)

/-- Python `key in options`. -/
def optHas (o : Options) (k : String) : Bool :=
  (o.lookup k).isSome

/-- Report items appended by the option parsers, embedded as opaque tags
mirroring the `lib_reports` constructor calls in the source. -/
inductive ReportMsg
  | invalidOptionValue (optionName value : String)
  | rrpAddressesTransportMismatch
  | rrpActiveNotSupported (forced : Bool)
  | cmanBroadcastAllRings
  | cmanUdpuRestartRequired
  | cmanIgnoredOption (optionName : String)
  | commonInfo (text : String)
  | commonError (text : String)
deriving DecidableEq

/-- Per-ring options dictionary built by the option parsers (keys present
in the Python dict become `some` fields / a set flag). -/
structure RingOptions where
  addr : Option String := none
  broadcast : Bool := false
  mcastaddr : Option String := none
  mcastport : Option String := none
  ttl : Option String := none
deriving DecidableEq

/-- The `transport_options` dictionary built by the option parsers. -/
structure TransportOptions where
  transport : Option String := none
  rrp_mode : Option String := none
  ip_version : Option String := none
  broadcast : Bool := false
  rings_options : List RingOptions := []
deriving DecidableEq

/-- Result of `cluster_setup_parse_options_corosync`: transport, totem and
quorum option dictionaries. -/
structure ParsedCorosyncOptions where
  transport_options : TransportOptions
  totem_options : Options
  quorum_options : Options
deriving DecidableEq

/-- Result of `cluster_setup_parse_options_cman`: transport and totem
option dictionaries only — the cman parser produces no quorum options
(it reports the corosync-only quorum flags as ignored instead). -/
structure ParsedCmanOptions where
  transport_options : TransportOptions
  totem_options : Options
deriving DecidableEq

/-- Keep the pairs of `pairs` whose option name is present in `o`, renamed
to the parsed name, in the fixed iteration order of `pairs` (the loops
`for opt_name, parsed_name in ...names.items()`). -/
def optionsSubset (pairs : List (String × String)) (o : Options) : Options :=
  pairs.filterMap (fun p => (o.lookup p.1).map (fun v => (p.2, v)))

/-- Transport chosen by `cluster_setup_parse_options_corosync` (default
"udpu", overridden by `--transport`). -/
def corosync_transport (o : Options) : String :=
  (o.lookup "--transport").getD "udpu"

/-- Invalid-transport report of the corosync parser. -/
def corosync_transport_messages (o : Options) : List ReportMsg :=
  match o.lookup "--transport" with
  | none => []
  | some t => if t = "udp" ∨ t = "udpu" then [] else [.invalidOptionValue "transport" t]

/-- Ring-address/transport mismatch report of the corosync parser. -/
def corosync_mismatch_messages (o : Options) : List ReportMsg :=
  if corosync_transport o = "udpu" && (optHas o "--addr0" || optHas o "--addr1") then
    [.rrpAddressesTransportMismatch]
  else []

/-- RRP mode chosen by the corosync parser (cluster.py lines 457-473):
`none` unless `--rrpmode` or `--addr0` is given; defaults to "passive",
overridden by an explicit `--rrpmode`. -/
def corosync_rrpmode (o : Options) : Option String :=
  if optHas o "--rrpmode" || optHas o "--addr0" then
    some ((o.lookup "--rrpmode").getD "passive")
  else none

/-- RRP-mode reports of the corosync parser: invalid value, and the
always-appended unsupported report for "active". -/
def corosync_rrp_messages (o : Options) (force : Bool) : List ReportMsg :=
  match corosync_rrpmode o with
  | none => []
  | some m =>
    (if m = "passive" ∨ m = "active" then [] else [.invalidOptionValue "RRP mode" m])
      ++ (if m = "active" then [.rrpActiveNotSupported force] else [])

/-- Totem option names recognised by the corosync parser, in iteration
order. -/
def totem_option_names_corosync : List (String × String) :=
  [("--token", "token"), ("--token_coefficient", "token_coefficient"),
   ("--join", "join"), ("--consensus", "consensus"),
   ("--miss_count_const", "miss_count_const"),
   ("--fail_recv_const", "fail_recv_const")]

/-- Totem options collected by the corosync parser. -/
def corosync_totem_options (o : Options) : Options :=
  optionsSubset totem_option_names_corosync o

/-- Ring options built by the corosync parser for interface `i`
(cluster.py lines 493-511): the bind address; either broadcast, or the
multicast address (default `239.255.(i+1).1`), multicast port (default
"5405") and optional ttl. -/
def corosync_ring_options (o : Options) (i : Nat) : RingOptions :=
  if optHas o ("--broadcast" ++ toString i) then
    { addr := o.lookup ("--addr" ++ toString i), broadcast := true }
  else
    { addr := o.lookup ("--addr" ++ toString i)
      mcastaddr := some ((o.lookup ("--mcast" ++ toString i)).getD
        ("239.255." ++ toString (i + 1) ++ ".1"))
      mcastport := some ((o.lookup ("--mcastport" ++ toString i)).getD "5405")
      ttl := o.lookup ("--ttl" ++ toString i) }

/-- Interfaces configured by the corosync parser: ring 0 when `--addr0`
is given, additionally ring 1 when `--addr1` is also given. -/
def corosync_interface_ids (o : Options) : List Nat :=
  if optHas o "--addr0" then (if optHas o "--addr1" then [0, 1] else [0]) else []

/-- Rings options list of the corosync parser (only for transport
"udp"). -/
def corosync_rings_options (o : Options) : List RingOptions :=
  if corosync_transport o = "udp" then
    (corosync_interface_ids o).map (corosync_ring_options o)
  else []

/-- The `ip_version` entry of the corosync parser. -/
def corosync_ip_version (o : Options) : Option String :=
  if optHas o "--ipv6" then some "ipv6" else none

/-- Quorum option names recognised by the corosync parser, in iteration
order. -/
def quorum_option_names : List (String × String) :=
  [("--wait_for_all", "wait_for_all"), ("--auto_tie_breaker", "auto_tie_breaker"),
   ("--last_man_standing", "last_man_standing"),
   ("--last_man_standing_window", "last_man_standing_window")]

/-- Quorum options collected by the corosync parser. -/
def corosync_quorum_options (o : Options) : Options :=
  optionsSubset quorum_option_names o

/-- Invalid-value reports for the boolean quorum options. -/
def corosync_quorum_messages (o : Options) : List ReportMsg :=
  ["--wait_for_all", "--auto_tie_breaker", "--last_man_standing"].filterMap
    (fun n =>
      match o.lookup n with
      | none => none
      | some v => if v = "0" ∨ v = "1" then none else some (.invalidOptionValue n v))

/-- Embedding of `cluster_setup_parse_options_corosync` (cluster.py lines
428-534). -/
def cluster_setup_parse_options_corosync (o : Options) (force : Bool) :
    ParsedCorosyncOptions × List ReportMsg :=
  (⟨⟨some (corosync_transport o), corosync_rrpmode o, corosync_ip_version o,
      false, corosync_rings_options o⟩,
    corosync_totem_options o, corosync_quorum_options o⟩,
   corosync_transport_messages o ++ corosync_mismatch_messages o
     ++ corosync_rrp_messages o force ++ corosync_quorum_messages o)

/-- Whether the cman parser selects broadcast transport. -/
def cman_broadcast (o : Options) : Bool :=
  optHas o "--broadcast0" || optHas o "--broadcast1"

/-- Transport chosen by `cluster_setup_parse_options_cman`: "udpb" under
broadcast, else default "udp" overridden by `--transport`. -/
def cman_transport (o : Options) : String :=
  if cman_broadcast o then "udpb" else (o.lookup "--transport").getD "udp"

/-- Broadcast-on-all-rings report of the cman parser. -/
def cman_broadcast_messages (o : Options) : List ReportMsg :=
  if cman_broadcast o && (!optHas o "--broadcast0" || !optHas o "--broadcast1") then
    [.cmanBroadcastAllRings]
  else []

/-- Invalid-transport report of the cman parser (only in the
non-broadcast branch). -/
def cman_transport_messages (o : Options) : List ReportMsg :=
  if cman_broadcast o then []
  else
    match o.lookup "--transport" with
    | none => []
    | some t => if t = "udp" ∨ t = "udpu" then [] else [.invalidOptionValue "transport" t]

/-- The udpu restart-required and mismatch reports of the cman parser. -/
def cman_udpu_messages (o : Options) : List ReportMsg :=
  (if cman_transport o = "udpu" then [.cmanUdpuRestartRequired] else [])
    ++ (if cman_transport o = "udpu" && (optHas o "--addr0" || optHas o "--addr1") then
      [.rrpAddressesTransportMismatch]
    else [])

/-- RRP mode chosen by the cman parser (cluster.py lines 578-595), same
rule as the corosync parser. -/
def cman_rrpmode (o : Options) : Option String :=
  if optHas o "--rrpmode" || optHas o "--addr0" then
    some ((o.lookup "--rrpmode").getD "passive")
  else none

/-- RRP-mode reports of the cman parser. -/
def cman_rrp_messages (o : Options) (force : Bool) : List ReportMsg :=
  match cman_rrpmode o with
  | none => []
  | some m =>
    (if m = "passive" ∨ m = "active" then [] else [.invalidOptionValue "RRP mode" m])
      ++ (if m = "active" then [.rrpActiveNotSupported force] else [])

/-- Totem option names recognised by the cman parser, in iteration
order (no token_coefficient). -/
def totem_option_names_cman : List (String × String) :=
  [("--token", "token"), ("--join", "join"), ("--consensus", "consensus"),
   ("--miss_count_const", "miss_count_const"),
   ("--fail_recv_const", "fail_recv_const")]

/-- Totem options collected by the cman parser. -/
def cman_totem_options (o : Options) : Options :=
  optionsSubset totem_option_names_cman o

/-- Ring options built by the cman parser for interface `i` (cluster.py
lines 608-624): multicast address defaults to `239.255.(i+1).1`, but the
multicast port and ttl are set only when explicitly given. -/
def cman_ring_options (o : Options) (i : Nat) : RingOptions :=
  { mcastaddr := some ((o.lookup ("--mcast" ++ toString i)).getD
      ("239.255." ++ toString (i + 1) ++ ".1"))
    mcastport := o.lookup ("--mcastport" ++ toString i)
    ttl := o.lookup ("--ttl" ++ toString i) }

/-- Rings options list of the cman parser: in the non-broadcast case, one
entry per interface in (0, 1) whose `--addr<i>` is given. -/
def cman_rings_options (o : Options) : List RingOptions :=
  if cman_broadcast o then []
  else ([0, 1].filter (fun i => optHas o ("--addr" ++ toString i))).map (cman_ring_options o)

/-- Option names the cman parser reports as ignored. -/
def cman_ignored_option_names : List String :=
  ["--wait_for_all", "--auto_tie_breaker", "--last_man_standing",
   "--last_man_standing_window", "--token_coefficient", "--ipv6"]

/-- Ignored-option reports of the cman parser. -/
def cman_ignored_messages (o : Options) : List ReportMsg :=
  (cman_ignored_option_names.filter (optHas o)).map .cmanIgnoredOption

/-- Embedding of `cluster_setup_parse_options_cman` (cluster.py lines
536-638). -/
def cluster_setup_parse_options_cman (o : Options) (force : Bool) :
    ParsedCmanOptions × List ReportMsg :=
  (⟨⟨some (cman_transport o), cman_rrpmode o, none,
      cman_broadcast o, cman_rings_options o⟩,
    cman_totem_options o⟩,
   cman_broadcast_messages o ++ cman_transport_messages o
     ++ cman_udpu_messages o ++ cman_rrp_messages o force
     ++ cman_ignored_messages o)

/-- The post-parse adjustment in `cluster_setup` (cluster.py lines
298-299): when any node carries a ring-1 address (udpu RRP) and the
parser produced no RRP mode, set it to "passive". -/
def apply_udpu_rrp_default (udpu_rrp : Bool) (t : TransportOptions) : TransportOptions :=
  if udpu_rrp && t.rrp_mode.isNone then { t with rrp_mode := some "passive" } else t

theorem optHas_false_lookup {o : Options} {k : String} (h : optHas o k = false) :
    o.lookup k = none := by
  unfold optHas at h
  cases hx : o.lookup k with
  | none => rfl
  | some v => rw [hx] at h; simp at h

/-- C8 counterexample: with only a ring-1 address (`--addr1`) given and no
explicit RRP mode, both option parsers accept the input with no report and
produce no `rrp_mode` at all — the "passive" default is keyed on
`--addr0`, not on a ring-1 address. -/
theorem rrp_ring1_no_default_counterexample :
    (cluster_setup_parse_options_corosync
        [("--transport", "udp"), ("--addr1", "192.168.1.1")] false).1.transport_options.rrp_mode
      = none
    ∧ (cluster_setup_parse_options_corosync
        [("--transport", "udp"), ("--addr1", "192.168.1.1")] false).2 = []
    ∧ (cluster_setup_parse_options_cman
        [("--addr1", "192.168.1.1")] false).1.transport_options.rrp_mode = none
    ∧ (cluster_setup_parse_options_cman
        [("--addr1", "192.168.1.1")] false).2 = [] :=
  ⟨rfl, rfl, rfl, rfl⟩

/-- C8 (amended): in both option-parsing paths, whenever a ring-0 address
(`--addr0`) is given and no explicit RRP mode option is supplied, the
parsed transport options carry rrp_mode "passive"; the setup flow
additionally defaults rrp_mode to "passive" when the nodes carry ring-1
addresses (udpu RRP) and the parser produced none; and whenever the
resulting RRP mode is "active", the unsupported-RRP report is emitted
regardless of the force flag. -/
theorem rrp_mode_default_and_active_unsupported :
    ∀ (o : Options) (force : Bool) (t : TransportOptions),
      (optHas o "--addr0" = true → optHas o "--rrpmode" = false →
        (cluster_setup_parse_options_corosync o force).1.transport_options.rrp_mode
            = some "passive"
        ∧ (cluster_setup_parse_options_cman o force).1.transport_options.rrp_mode
            = some "passive")
      ∧ ((cluster_setup_parse_options_corosync o force).1.transport_options.rrp_mode
            = some "active" →
          ReportMsg.rrpActiveNotSupported force
            ∈ (cluster_setup_parse_options_corosync o force).2)
      ∧ ((cluster_setup_parse_options_cman o force).1.transport_options.rrp_mode
            = some "active" →
          ReportMsg.rrpActiveNotSupported force
            ∈ (cluster_setup_parse_options_cman o force).2)
      ∧ (t.rrp_mode = none → (apply_udpu_rrp_default true t).rrp_mode = some "passive") := by
  intro o force t
  refine ⟨?_, ?_, ?_, ?_⟩
  · intro h0 h1
    constructor
    · simp [cluster_setup_parse_options_corosync, corosync_rrpmode, h0, h1,
        optHas_false_lookup h1]
    · simp [cluster_setup_parse_options_cman, cman_rrpmode, h0, h1,
        optHas_false_lookup h1]
  · intro h
    have hm : corosync_rrpmode o = some "active" := h
    simp [cluster_setup_parse_options_corosync, corosync_rrp_messages, hm]
  · intro h
    have hm : cman_rrpmode o = some "active" := h
    simp [cluster_setup_parse_options_cman, cman_rrp_messages, hm]
  · intro h
    simp [apply_udpu_rrp_default, h]

theorem rrp_mode_default_and_active_unsupported_witness :
    (cluster_setup_parse_options_corosync
        [("--addr0", "10.0.0.0")] false).1.transport_options.rrp_mode = some "passive"
    ∧ ReportMsg.rrpActiveNotSupported true
        ∈ (cluster_setup_parse_options_corosync [("--rrpmode", "active")] true).2
    ∧ (apply_udpu_rrp_default true {}).rrp_mode = some "passive" :=
  ⟨((rrp_mode_default_and_active_unsupported
      [("--addr0", "10.0.0.0")] false {}).1 rfl rfl).1,
   (rrp_mode_default_and_active_unsupported
      [("--rrpmode", "active")] true {}).2.1 rfl,
   (rrp_mode_default_and_active_unsupported [] false {}).2.2.2 rfl⟩

/-- C9 counterexample: on the cman path, a ring built without an explicit
multicast override gets the default multicast address but no multicast
port at all — the "5405" port default exists only on the corosync path. -/
theorem mcastport_cman_no_default_counterexample :
    (cluster_setup_parse_options_cman
        [("--addr0", "10.0.0.0")] false).1.transport_options.rings_options
      = [{ addr := none, broadcast := false, mcastaddr := some "239.255.1.1",
           mcastport := none, ttl := none }] :=
  rfl

/-- C9 (amended): for every ring `i` built without an explicit multicast
override and without broadcast, the multicast address defaults to
`239.255.(i+1).1` on both option-parsing paths; the multicast port
defaults to "5405" on the corosync path only, while the cman path sets a
port only when one is explicitly given. -/
theorem multicast_defaults :
    ∀ (o : Options) (force : Bool) (i : Nat),
      ((cluster_setup_parse_options_corosync o force).1.transport_options.rings_options
        = if corosync_transport o = "udp" then
            (corosync_interface_ids o).map (corosync_ring_options o)
          else [])
      ∧ (optHas o ("--broadcast" ++ toString i) = false →
          optHas o ("--mcast" ++ toString i) = false →
          optHas o ("--mcastport" ++ toString i) = false →
          (corosync_ring_options o i).mcastaddr
              = some ("239.255." ++ toString (i + 1) ++ ".1")
          ∧ (corosync_ring_options o i).mcastport = some "5405")
      ∧ ((cluster_setup_parse_options_cman o force).1.transport_options.rings_options
        = if cman_broadcast o then []
          else ([0, 1].filter (fun j => optHas o ("--addr" ++ toString j))).map
            (cman_ring_options o))
      ∧ (optHas o ("--mcast" ++ toString i) = false →
          (cman_ring_options o i).mcastaddr
              = some ("239.255." ++ toString (i + 1) ++ ".1")
          ∧ (cman_ring_options o i).mcastport = o.lookup ("--mcastport" ++ toString i)) := by
  intro o force i
  refine ⟨rfl, ?_, rfl, ?_⟩
  · intro hb hm hp
    constructor
    · simp [corosync_ring_options, hb, optHas_false_lookup hm]
    · simp [corosync_ring_options, hb, optHas_false_lookup hp]
  · intro hm
    exact ⟨by simp [cman_ring_options, optHas_false_lookup hm], rfl⟩

theorem multicast_defaults_witness :
    ((corosync_ring_options [("--addr0", "10.0.0.0")] 0).mcastaddr = some "239.255.1.1"
      ∧ (corosync_ring_options [("--addr0", "10.0.0.0")] 0).mcastport = some "5405")
    ∧ ((cman_ring_options [("--addr0", "10.0.0.0")] 0).mcastaddr = some "239.255.1.1"
      ∧ (cman_ring_options [("--addr0", "10.0.0.0")] 0).mcastport = none) :=
  ⟨(multicast_defaults [("--addr0", "10.0.0.0")] false 0).2.1 rfl rfl rfl,
   (multicast_defaults [("--addr0", "10.0.0.0")] false 0).2.2.2 rfl⟩

/-- Modelled from the spec: the ordered section/attribute tree of the
corosync config parser (`pcs.lib.corosync.config_parser.Section`, not
among the provided sources; ConfigSection, spec section 3): a name, an
ordered attribute list (duplicates allowed), and an ordered list of
nested sections; `add_attribute` and `add_section` append. -/
inductive CSection
  | mk (name : String) (attributes : List (String × String))
      (sections : List CSection)

/-- Name of a section. -/
def CSection.name : CSection → String
  | .mk n _ _ => n

/-- Attributes of a section. -/
def CSection.attributes : CSection → List (String × String)
  | .mk _ a _ => a

/-- Nested sections of a section. -/
def CSection.sections : CSection → List CSection
  | .mk _ _ s => s

/-- Rendering of an attribute list: one `key: value` line per attribute,
in order. -/
def renderAttrs : List (String × String) → String
  | [] => ""
  | a :: rest => a.1 ++ ": " ++ a.2 ++ "\n" ++ renderAttrs rest

mutual

/-- Modelled from the spec (section 6): a section renders as `name \x7b`
newline, attribute lines, nested blocks, `\x7d`; the anonymous root
section renders its contents without a wrapping block. -/
def CSection.render : CSection → String
  | .mk n attrs secs =>
    if n = "" then renderAttrs attrs ++ CSection.renderList secs
    else n ++ " \x7b\n" ++ renderAttrs attrs ++ CSection.renderList secs ++ "\x7d\n"

/-- Rendering of a list of sections, in order. -/
def CSection.renderList : List CSection → String
  | [] => ""
  | s :: rest => CSection.render s ++ CSection.renderList rest

end

/-- A node's option dictionary built by `cluster_setup` (ring-0 address,
optional ring-1 address). -/
structure NodeOptions where
  ring0_addr : Option String := none
  ring1_addr : Option String := none
deriving DecidableEq

/-- An optional attribute: present when the dictionary key is present. -/
def optAttr (key : String) : Option String → List (String × String)
  | some v => [(key, v)]
  | none => []

/-- The `interface` sub-section built for ring `i` in the totem section
(cluster.py lines 685-703). -/
def mkInterfaceSection (i : Nat) (r : RingOptions) : CSection :=
  .mk "interface"
    ([("ringnumber", toString i)]
      ++ optAttr "bindnetaddr" r.addr
      ++ (if r.broadcast then [("broadcast", "yes")]
        else optAttr "mcastaddr" r.mcastaddr ++ optAttr "mcastport" r.mcastport
          ++ optAttr "ttl" r.ttl))
    []

/-- Interface sections added to the totem section: only when the
transport is "udp", one per entry of `rings_options`, numbered from 0. -/
def interfaceSectionsFrom : Nat → List RingOptions → List CSection
  | _, [] => []
  | i, r :: rest => mkInterfaceSection i r :: interfaceSectionsFrom (i + 1) rest

/-- The `totem` section of the generated corosync.conf (cluster.py lines
655-703): fixed header attributes, then the transport options, then the
totem timing options, then the interface sub-sections for "udp". -/
def totemSection (cluster_name : String) (transport_options : TransportOptions)
    (totem_options : Options) : CSection :=
  .mk "totem"
    ([("version", "2"), ("secauth", "off"), ("cluster_name", cluster_name)]
      ++ optAttr "transport" transport_options.transport
      ++ optAttr "rrp_mode" transport_options.rrp_mode
      ++ optAttr "ip_version" transport_options.ip_version
      ++ optionsSubset
        [("token", "token"), ("token_coefficient", "token_coefficient"),
         ("join", "join"), ("consensus", "consensus"),
         ("miss_count_const", "miss_count_const"),
         ("fail_recv_const", "fail_recv_const")] totem_options)
    (if transport_options.transport = some "udp" then
      interfaceSectionsFrom 0 transport_options.rings_options
    else [])

/-- The `node` sub-section for one node (cluster.py lines 706-711):
ring-0 address, optional ring-1 address, then the node id. -/
def mkNodeSection (node_id : Nat) (node_options : NodeOptions) : CSection :=
  .mk "node"
    (optAttr "ring0_addr" node_options.ring0_addr
      ++ optAttr "ring1_addr" node_options.ring1_addr
      ++ [("nodeid", toString node_id)])
    []

/-- Node sub-sections numbered from `k` (the loop
`for node_id, node_options in enumerate(node_list, 1)`). -/
def nodeSectionsFrom : Nat → List NodeOptions → List CSection
  | _, [] => []
  | k, n :: rest => mkNodeSection k n :: nodeSectionsFrom (k + 1) rest

/-- The `nodelist` section of the generated corosync.conf. -/
def nodelistSection (node_list : List NodeOptions) : CSection :=
  .mk "nodelist" [] (nodeSectionsFrom 1 node_list)

/-- The quorum option names copied into the quorum section by the
builder, in iteration order (cluster.py lines 714-722). -/
def quorum_option_names_builder : List (String × String) :=
  [("wait_for_all", "wait_for_all"), ("auto_tie_breaker", "auto_tie_breaker"),
   ("last_man_standing", "last_man_standing"),
   ("last_man_standing_window", "last_man_standing_window")]

/-- The `quorum` section of the generated corosync.conf (cluster.py lines
713-729): the votequorum provider, the quorum options, and the `two_node`
marker exactly when there are two nodes and auto_tie_breaker is not
enabled. -/
def quorumSection (quorum_options : Options) (node_count : Nat) : CSection :=
  .mk "quorum"
    ([("provider", "corosync_votequorum")]
      ++ optionsSubset quorum_option_names_builder quorum_options
      ++ (if node_count = 2 ∧ quorum_options.lookup "auto_tie_breaker" ≠ some "1" then
        [("two_node", "1")]
      else []))
    []

/-- The `logging` section of the generated corosync.conf. -/
def loggingSection : CSection :=
  .mk "logging"
    [("to_logfile", "yes"), ("logfile", "/var/log/cluster/corosync.log"),
     ("to_syslog", "yes")]
    []

/-- The section tree assembled by `cluster_setup_create_corosync_conf`
(cluster.py lines 640-735): top-level totem, nodelist, quorum and logging
sections, in that order, under an anonymous root. -/
def cluster_setup_create_corosync_conf_section (cluster_name : String)
    (node_list : List NodeOptions) (transport_options : TransportOptions)
    (totem_options quorum_options : Options) : CSection :=
  .mk "" []
    [totemSection cluster_name transport_options totem_options,
     nodelistSection node_list,
     quorumSection quorum_options node_list.length,
     loggingSection]

/-- Embedding of `cluster_setup_create_corosync_conf`: the rendered
configuration string and the (always empty) message list. -/
def cluster_setup_create_corosync_conf (cluster_name : String)
    (node_list : List NodeOptions) (transport_options : TransportOptions)
    (totem_options quorum_options : Options) : String × List ReportMsg :=
  (CSection.render (cluster_setup_create_corosync_conf_section cluster_name
      node_list transport_options totem_options quorum_options),
   [])

/-- One queued `ccs` invocation of the cman path: the command arguments
and the error message used if it fails. -/
structure CmdItem where
  cmd : List String
  err : String
deriving DecidableEq

/-- The options passed to `--setcman` (cluster.py lines 756-762): the
transport when present, the broadcast flag, and for a two-node list the
`two_node=1` and `expected_votes=1` markers. -/
def cman_opts_of (node_count : Nat) (transport_options : TransportOptions) : List String :=
  (match transport_options.transport with
    | some v => ["transport=" ++ v]
    | none => [])
    ++ ["broadcast=" ++ (if transport_options.broadcast then "yes" else "no")]
    ++ (if node_count = 2 then ["two_node=1", "expected_votes=1"] else [])

/-- The per-node commands of the cman path (cluster.py lines 768-795). -/
def cman_node_commands (node_options : NodeOptions) : List CmdItem :=
  match node_options.ring0_addr with
  | none => []
  | some ring0_addr =>
    [⟨["--addnode", ring0_addr], "error adding node: " ++ ring0_addr⟩]
      ++ (match node_options.ring1_addr with
        | some ring1_addr =>
          [⟨["--addalt", ring0_addr, ring1_addr],
            "error adding alternative address for node: " ++ ring0_addr⟩]
        | none => [])
      ++ [⟨["-i", "--addmethod", "pcmk-method", ring0_addr],
          "error adding fence method: " ++ ring0_addr⟩,
        ⟨["-i", "--addfenceinst", "pcmk-redirect", ring0_addr, "pcmk-method",
            "port=" ++ ring0_addr],
          "error adding fence instance: " ++ ring0_addr⟩]

/-- The multicast options of one ring command on the cman path. -/
def cman_mcast_options (r : RingOptions) : List String :=
  (match r.mcastaddr with | some a => [a] | none => [])
    ++ (match r.mcastport with | some p => ["port=" ++ p] | none => [])
    ++ (match r.ttl with | some t => ["ttl=" ++ t] | none => [])

/-- The per-ring multicast commands of the cman path, numbered from 0
(ring 0 uses `--setmulticast`, later rings `--setaltmulticast`). -/
def cman_ring_commands_from : Nat → List RingOptions → List CmdItem
  | _, [] => []
  | i, r :: rest =>
    ⟨[if i = 0 then "--setmulticast" else "--setaltmulticast"] ++ cman_mcast_options r,
      "error adding ring" ++ toString i ++ " settings"⟩
      :: cman_ring_commands_from (i + 1) rest

/-- The `--settotem` options of the cman path (cluster.py lines
818-839). -/
def cman_totem_cmd_options (totem_options : Options)
    (transport_options : TransportOptions) : List String :=
  (["token", "join", "consensus", "miss_count_const", "fail_recv_const"].filterMap
    (fun n => (totem_options.lookup n).map (fun v => n ++ "=" ++ v)))
    ++ (match transport_options.rrp_mode with
      | some m => ["rrp_mode=" ++ m]
      | none => [])

/-- Embedding of the command sequence built by
`cluster_setup_create_cluster_conf` (cluster.py lines 737-839): the
cluster/fence-device creation, the `--setcman` options, the per-node
commands, the multicast ring commands when not broadcasting, and the
totem options command when non-empty.  (The source then feeds this
sequence to the external `ccs` tool and returns the file it produced.) -/
def cluster_setup_create_cluster_conf_commands (cluster_name : String)
    (node_list : List NodeOptions) (transport_options : TransportOptions)
    (totem_options : Options) : List CmdItem :=
  [⟨["-i", "--createcluster", cluster_name],
      "error creating cluster: " ++ cluster_name⟩,
    ⟨["-i", "--addfencedev", "pcmk-redirect", "agent=fence_pcmk"],
      "error creating fence dev: " ++ cluster_name⟩,
    ⟨["--setcman"] ++ cman_opts_of node_list.length transport_options,
      "error setting cman options"⟩]
    ++ (node_list.map cman_node_commands).flatten
    ++ (if !transport_options.broadcast then
      cman_ring_commands_from 0 transport_options.rings_options
    else [])
    ++ (if (cman_totem_cmd_options totem_options transport_options).isEmpty then []
    else [⟨["--settotem"] ++ cman_totem_cmd_options totem_options transport_options,
        "error setting totem options"⟩])

theorem optionsSubset_keys {pairs : List (String × String)} {o : Options}
    {kv : String × String} (h : kv ∈ optionsSubset pairs o) :
    kv.1 ∈ pairs.map Prod.snd := by
  unfold optionsSubset at h
  rcases List.mem_filterMap.mp h with ⟨p, hp, hf⟩
  rcases Option.map_eq_some'.mp hf with ⟨v, _, hkv⟩
  rw [← hkv]
  exact List.mem_map.mpr ⟨p, hp, rfl⟩

theorem transport_prefix_ne (v : String) : "transport=" ++ v ≠ "two_node=1" := by
  intro h
  have hlen := congrArg String.length h
  rw [String.length_append] at hlen
  have hv : v.length = 0 := by
    have h1 : ("transport=").length = 10 := rfl
    have h2 : ("two_node=1").length = 10 := rfl
    omega
  have hvdata : v.data = [] := List.length_eq_zero.mp hv
  have hvempty : v = "" := by
    cases v with
    | mk d => simp only [String.data] at hvdata; rw [hvdata]
  rw [hvempty] at h
  exact absurd h (by decide)

/-- C1: the generated configuration carries the two-node marker exactly
when the node list has two members and auto_tie_breaker is not enabled:
the corosync builder adds the `two_node` attribute to the quorum section
(the third top-level section) under exactly that condition, and the cman
builder adds `two_node=1` to the `--setcman` command (the third command)
exactly when the node list has two members — the cman option parser
produces no quorum options at all (auto_tie_breaker is reported as
ignored), so the tie-breaker is never enabled on that path. -/
theorem two_node_marker_iff :
    ∀ (cluster_name : String) (node_list : List NodeOptions)
      (transport_options : TransportOptions) (totem_options quorum_options : Options),
      (("two_node", "1") ∈ (quorumSection quorum_options node_list.length).attributes
        ↔ (node_list.length = 2 ∧ quorum_options.lookup "auto_tie_breaker" ≠ some "1"))
      ∧ ((cluster_setup_create_corosync_conf_section cluster_name node_list
          transport_options totem_options quorum_options).sections.get? 2
        = some (quorumSection quorum_options node_list.length))
      ∧ ("two_node=1" ∈ cman_opts_of node_list.length transport_options
        ↔ node_list.length = 2)
      ∧ ((cluster_setup_create_cluster_conf_commands cluster_name node_list
          transport_options totem_options).get? 2
        = some ⟨["--setcman"] ++ cman_opts_of node_list.length transport_options,
            "error setting cman options"⟩) := by
  intro cluster_name node_list transport_options totem_options quorum_options
  refine ⟨?_, rfl, ?_, rfl⟩
  · constructor
    · intro h
      unfold quorumSection CSection.attributes at h
      rcases List.mem_cons.mp h with h | h
      · exact absurd h (by decide)
      rcases List.mem_append.mp h with h | h
      · have hk := optionsSubset_keys h
        exact absurd hk (by decide)
      · by_cases hc : node_list.length = 2
          ∧ quorum_options.lookup "auto_tie_breaker" ≠ some "1"
        · exact hc
        · rw [if_neg hc] at h
          exact absurd h (List.not_mem_nil _)
    · intro hc
      unfold quorumSection CSection.attributes
      refine List.mem_cons.mpr (Or.inr (List.mem_append.mpr (Or.inr ?_)))
      rw [if_pos hc]
      exact List.mem_singleton.mpr rfl
  · constructor
    · intro h
      unfold cman_opts_of at h
      rcases List.mem_append.mp h with h | h
      · rcases List.mem_append.mp h with h | h
        · cases htr : transport_options.transport with
          | none => rw [htr] at h; exact absurd h (List.not_mem_nil _)
          | some v =>
            rw [htr] at h
            have := List.mem_singleton.mp h
            exact absurd this.symm (transport_prefix_ne v)
        · have := List.mem_singleton.mp h
          cases hb : transport_options.broadcast with
          | true => rw [hb] at this; exact absurd this (by decide)
          | false => rw [hb] at this; exact absurd this (by decide)
      · by_cases hc : node_list.length = 2
        · exact hc
        · rw [if_neg hc] at h
          exact absurd h (List.not_mem_nil _)
    · intro hc
      unfold cman_opts_of
      refine List.mem_append.mpr (Or.inr ?_)
      rw [if_pos hc]
      exact List.mem_cons_self _ _

theorem nodeSectionsFrom_length :
    ∀ (k : Nat) (l : List NodeOptions), (nodeSectionsFrom k l).length = l.length := by
  intro k l
  induction l generalizing k with
  | nil => rfl
  | cons n rest ih => simp [nodeSectionsFrom, ih]

theorem nodeSectionsFrom_names :
    ∀ (k : Nat) (l : List NodeOptions),
      (nodeSectionsFrom k l).map CSection.name = List.replicate l.length "node" := by
  intro k l
  induction l generalizing k with
  | nil => rfl
  | cons n rest ih =>
    simp [nodeSectionsFrom, mkNodeSection, CSection.name, List.replicate, ih]

/-- The arithmetic sequence `k, k+1, ..., k+n-1`. -/
def rangeFrom : Nat → Nat → List Nat
  | _, 0 => []
  | k, n + 1 => k :: rangeFrom (k + 1) n

theorem filter_nodeid_optAttr (key : String) (hx : (key == "nodeid") = false)
    (v : Option String) :
    (optAttr key v).filter (fun a => a.1 == "nodeid") = [] := by
  cases v <;> simp [optAttr, hx]

theorem nodeSectionsFrom_nodeids :
    ∀ (k : Nat) (l : List NodeOptions),
      (nodeSectionsFrom k l).map
          (fun s => s.attributes.filter (fun a => a.1 == "nodeid"))
        = (rangeFrom k l.length).map (fun i => [("nodeid", toString i)]) := by
  intro k l
  induction l generalizing k with
  | nil => rfl
  | cons n rest ih =>
    show (mkNodeSection k n).attributes.filter (fun a => a.1 == "nodeid")
        :: (nodeSectionsFrom (k + 1) rest).map
          (fun s => s.attributes.filter (fun a => a.1 == "nodeid"))
      = [("nodeid", toString k)]
        :: (rangeFrom (k + 1) rest.length).map (fun i => [("nodeid", toString i)])
    rw [ih]
    congr 1
    unfold mkNodeSection CSection.attributes
    rw [List.filter_append, List.filter_append]
    rw [filter_nodeid_optAttr "ring0_addr" (by decide) n.ring0_addr]
    rw [filter_nodeid_optAttr "ring1_addr" (by decide) n.ring1_addr]
    simp

/-- C7: the generated corosync.conf tree has exactly the four top-level
sections totem, nodelist, quorum, logging in that order; the nodelist has
one `node` sub-section per input node, in input order, with sequential
node ids starting at 1; and the rendered string is the concatenation of
the four sections' renderings in that order. -/
theorem corosync_conf_structure :
    ∀ (cluster_name : String) (node_list : List NodeOptions)
      (transport_options : TransportOptions) (totem_options quorum_options : Options),
      ((cluster_setup_create_corosync_conf_section cluster_name node_list
          transport_options totem_options quorum_options).sections.map CSection.name
        = ["totem", "nodelist", "quorum", "logging"])
      ∧ ((cluster_setup_create_corosync_conf_section cluster_name node_list
          transport_options totem_options quorum_options).sections.get? 1
        = some (nodelistSection node_list))
      ∧ ((nodelistSection node_list).sections.length = node_list.length)
      ∧ ((nodelistSection node_list).sections.map CSection.name
        = List.replicate node_list.length "node")
      ∧ ((nodelistSection node_list).sections.map
          (fun s => s.attributes.filter (fun a => a.1 == "nodeid"))
        = (rangeFrom 1 node_list.length).map (fun i => [("nodeid", toString i)]))
      ∧ ((cluster_setup_create_corosync_conf cluster_name node_list
          transport_options totem_options quorum_options).1
        = CSection.render (totemSection cluster_name transport_options totem_options)
          ++ CSection.render (nodelistSection node_list)
          ++ CSection.render (quorumSection quorum_options node_list.length)
          ++ CSection.render loggingSection) := by
  intro cluster_name node_list transport_options totem_options quorum_options
  refine ⟨rfl, rfl, ?_, ?_, ?_, ?_⟩
  · exact nodeSectionsFrom_length 1 node_list
  · exact nodeSectionsFrom_names 1 node_list
  · exact nodeSectionsFrom_nodeids 1 node_list
  · show CSection.render (cluster_setup_create_corosync_conf_section cluster_name
        node_list transport_options totem_options quorum_options) = _
    unfold cluster_setup_create_corosync_conf_section
    rw [CSection.render]
    simp [CSection.renderList, renderAttrs, String.empty_append,
      String.append_empty, String.append_assoc]

/-- A parsed quorum snapshot, abstracting the dictionary returned by
`utils.parse_quorumtool_output` / `utils.parse_cman_quorum_info` together
with the verdict of `utils.is_node_stop_cause_quorum_loss` for the node
set of the current invocation.  An unparseable output is represented by
`none` at the use sites. -/
structure QSnap where
  quorate : Bool
  lossIfStopped : Bool
deriving DecidableEq

/-- Outcome of a pre-flight check: proceed, or abort fatally via
`utils.err` with the given message. -/
inductive CheckResult
  | proceed
  | abort (msg : String)
deriving DecidableEq

/-- Per-node data consulted by the `stop_cluster_nodes` quorum loop: the
node name, the exit status and raw output of
`utils.get_remote_quorumtool_output`, the parsed snapshot (`none` when
the output could not be parsed), and whether
`utils.is_node_offline_by_quorumtool_output` reports the node offline. -/
structure NodeProbe where
  name : String
  retval : Nat
  data : String
  parsed : Option QSnap
  offline : Bool
deriving DecidableEq

/-- The aborting message of the multi-node unable-to-determine case. -/
def stop_nodes_unable_msg (errors : List String) : String :=
  "Unable to determine whether stopping the nodes will cause a loss of the quorum, use --force to override\n"
    ++ String.intercalate "\n" errors

/-- The aborting message of the multi-node quorum-loss case. -/
def stop_nodes_loss_msg : String :=
  "Stopping the node(s) will cause a loss of the quorum, use --force to override"

/-- Embedding of the quorum check of `stop_cluster` for a local stop
(cluster.py lines 1103-1131): with a parsed snapshot, abort on predicted
quorum loss; with an unparseable snapshot, abort with the
unable-to-determine error unless the node already looks offline; the
whole check is skipped under `--force`. -/
def stop_cluster_quorum_guard (force : Bool) (quorum_info : Option QSnap)
    (offline : Bool) : CheckResult :=
  if force then .proceed
  else
    match quorum_info with
    | some qi =>
      if qi.lossIfStopped then
        .abort "Stopping the node will cause a loss of the quorum, use --force to override"
      else .proceed
    | none =>
      if offline = false then
        .abort "Unable to determine whether stopping the node will cause a loss of the quorum, use --force to override"
      else .proceed

/-- Embedding of the quorum check of the remove-node branch of
`cluster_node` (cluster.py lines 1536-1565): without `--force`, a failed
quorum-tool query aborts; a parsed snapshot aborts on predicted loss; an
unparseable snapshot aborts with the unable-to-determine error unless the
node already looks offline. -/
def cluster_node_remove_quorum_guard (force : Bool) (retval : Nat) (data : String)
    (quorum_info : Option QSnap) (offline : Bool) : CheckResult :=
  if force then .proceed
  else if retval ≠ 0 then
    .abort ("Unable to determine whether removing the node will cause a loss of the quorum, use --force to override\n"
      ++ data)
  else
    match quorum_info with
    | some qi =>
      if qi.lossIfStopped then
        .abort "Removing the node will cause a loss of the quorum, use --force to override"
      else .proceed
    | none =>
      if offline = false then
        .abort ("Unable to determine whether removing the node will cause a loss of the quorum, use --force to override\n"
          ++ data)
      else .proceed

/-- Embedding of the per-node quorum loop of `stop_cluster_nodes`
(cluster.py lines 999-1034), carrying the accumulated error list: a
failed query appends an error and continues; a parsed non-quorate
snapshot continues; a parsed quorate snapshot aborts on predicted loss
and otherwise clears the errors and proceeds; an unparseable output of a
node not reported offline appends an error; a non-empty error list at
the end aborts with the unable-to-determine error. -/
def stop_nodes_quorum_loop : List NodeProbe → List String → CheckResult
  | [], errors =>
    if errors.isEmpty then .proceed else .abort (stop_nodes_unable_msg errors)
  | p :: rest, errors =>
    if p.retval ≠ 0 then
      stop_nodes_quorum_loop rest (errors ++ [p.name ++ ": " ++ p.data])
    else
      match p.parsed with
      | some qi =>
        if qi.quorate = false then stop_nodes_quorum_loop rest errors
        else if qi.lossIfStopped then .abort stop_nodes_loss_msg
        else .proceed
      | none =>
        if p.offline = false then
          stop_nodes_quorum_loop rest (errors ++ ["Unable to get quorum status"])
        else stop_nodes_quorum_loop rest errors

/-- Operations issued against nodes by the stop / destroy / remove
flows. -/
inductive NodeEvent
  | stopPacemaker (node : String)
  | stopCorosync (node : String)
  | destroyClusterOn (node : String)
  | removeLocalNode (member target : String)
  | reloadCorosync
  | crmNodeRemove (node : String)
deriving DecidableEq

/-- The stop operations `stop_cluster_nodes` issues when it proceeds: the
pacemaker fan-out followed by the corosync fan-out. -/
def stopEvents (nodes : List String) : List NodeEvent :=
  nodes.map NodeEvent.stopPacemaker ++ nodes.map NodeEvent.stopCorosync

/-- Embedding of `stop_cluster_nodes` (cluster.py lines 988-1042): nodes
outside the known membership abort; the quorum loop runs unless `--force`
is given or the requested set covers the whole membership; an aborting
check stops everything before any stop operation is issued. -/
def stop_cluster_nodes_model (force : Bool) (nodes all_nodes : List String)
    (probes : List NodeProbe) : CheckResult × List NodeEvent :=
  if !(nodes.all (fun n => all_nodes.contains n)) then
    (.abort ("nodes '"
      ++ String.intercalate "', '" (nodes.filter (fun n => !all_nodes.contains n))
      ++ "' do not appear to exist in configuration"), [])
  else
    match
      (if force = false ∧ all_nodes.all (fun n => nodes.contains n) = false then
        stop_nodes_quorum_loop probes []
      else CheckResult.proceed) with
    | .abort m => (.abort m, [])
    | .proceed => (.proceed, stopEvents nodes)

/-- The operations issued by `destroy_cluster` (cluster.py lines
1080-1096): stop pacemaker on every node, then destroy the cluster on
every node. -/
def destroy_cluster_trace (nodes : List String) : List NodeEvent :=
  nodes.map NodeEvent.stopPacemaker ++ nodes.map NodeEvent.destroyClusterOn

/-- The operations issued by the remove-node branch of `cluster_node`
after its pre-flight checks (cluster.py lines 1567-1592): destroy the
target's own cluster services first, then ask every remaining member to
remove the target from its membership configuration, then reload corosync
and evict the node from the live pacemaker membership. -/
def cluster_node_remove_trace (node0 : String) (c_nodes : List String) : List NodeEvent :=
  destroy_cluster_trace [node0]
    ++ (c_nodes.filter (fun n => !(n == node0))).map
      (fun n => NodeEvent.removeLocalNode n node0)
    ++ [NodeEvent.reloadCorosync, NodeEvent.crmNodeRemove node0]

/-- Events that stop or destroy the target's own cluster services. -/
def NodeEvent.isStopOrDestroy : NodeEvent → Bool
  | .stopPacemaker _ => true
  | .stopCorosync _ => true
  | .destroyClusterOn _ => true
  | _ => false

/-- Events that push a membership-configuration removal to a remaining
member. -/
def NodeEvent.isMembershipRemoval : NodeEvent → Bool
  | .removeLocalNode _ _ => true
  | _ => false

/-- Result of one membership push to an existing member during add-node
(`utils.addLocalNode`): exit status and output. -/
structure PushResult where
  node : String
  retval : Nat
  output : String
deriving DecidableEq

/-- The non-fatal message printed for a failed membership push during
add-node. -/
def add_node_fail_msg (node0 : String) (r : PushResult) : String :=
  "unable to add " ++ node0 ++ " on " ++ r.node ++ " - " ++ r.output

/-- Embedding of the push loop of the add-node branch of `cluster_node`
(cluster.py lines 1456-1465): each failure is reported non-fatally; each
success overwrites the updated configuration to distribute. -/
def add_node_push_loop (node0 : String) :
    Option String → List String → List PushResult → Option String × List String
  | conf, warnings, [] => (conf, warnings)
  | conf, warnings, r :: rest =>
    if r.retval ≠ 0 then
      add_node_push_loop node0 conf (warnings ++ [add_node_fail_msg node0 r]) rest
    else add_node_push_loop node0 (some r.output) warnings rest

/-- Overall outcome of the add-node membership push stage. -/
inductive AddNodeOutcome
  | fatal (msg : String)
  | continueWith (conf : String)
deriving DecidableEq

/-- Embedding of the acceptance policy of the add-node transaction
(cluster.py lines 1456-1465 and 1523-1524): after the push loop, a
missing updated configuration — meaning no existing member accepted the
update — is the fatal "Unable to update any nodes" error; otherwise the
transaction continues with the updated configuration. -/
def cluster_node_add_push (node0 : String) (results : List PushResult) :
    AddNodeOutcome × List String :=
  match add_node_push_loop node0 none [] results with
  | (none, warnings) => (.fatal "Unable to update any nodes", warnings)
  | (some conf, warnings) => (.continueWith conf, warnings)

/-- The errors accumulated by the quorum loop when every probe is
undeterminable: one "Unable to get quorum status" entry per probe whose
node is not reported offline. -/
def stop_nodes_unable_errors (probes : List NodeProbe) : List String :=
  (probes.filter (fun p => !p.offline)).map (fun _ => "Unable to get quorum status")

theorem stop_nodes_quorum_loop_undeterminable :
    ∀ (probes : List NodeProbe) (errors : List String),
      (∀ p ∈ probes, p.retval = 0 ∧ p.parsed = none) →
      stop_nodes_quorum_loop probes errors
        = (if (errors ++ stop_nodes_unable_errors probes).isEmpty then CheckResult.proceed
          else CheckResult.abort
            (stop_nodes_unable_msg (errors ++ stop_nodes_unable_errors probes))) := by
  intro probes
  induction probes with
  | nil =>
    intro errors _
    simp [stop_nodes_quorum_loop, stop_nodes_unable_errors]
  | cons p rest ih =>
    intro errors hall
    obtain ⟨hr, hp⟩ := hall p (List.mem_cons_self p rest)
    have hallr : ∀ q ∈ rest, q.retval = 0 ∧ q.parsed = none :=
      fun q hq => hall q (List.mem_cons.mpr (Or.inr hq))
    unfold stop_nodes_quorum_loop
    rw [if_neg (by simp [hr])]
    rw [hp]
    show (if p.offline = false then
        stop_nodes_quorum_loop rest (errors ++ ["Unable to get quorum status"])
      else stop_nodes_quorum_loop rest errors) = _
    cases ho : p.offline with
    | false =>
      rw [if_pos rfl]
      rw [ih _ hallr]
      simp [stop_nodes_unable_errors, ho]
    | true =>
      rw [if_neg (by simp)]
      rw [ih _ hallr]
      simp [stop_nodes_unable_errors, ho]

/-- C2: whenever the quorum-tool output cannot be parsed into a snapshot
and the target node is not reported as already offline, the stop and
remove-node flows abort with the unable-to-determine error unless the
force flag is given: the local stop guard, the remove-node guard, and
the multi-node stop loop (when no queried node yields a determinable
snapshot and some node is not offline) all behave this way, and with
force the multi-node stop proceeds regardless of the probes. -/
theorem quorum_undeterminable_requires_force :
    ∀ (force : Bool) (dat : String) (nodes all_nodes : List String)
      (probes : List NodeProbe),
      (stop_cluster_quorum_guard force none false
        = if force then CheckResult.proceed
          else CheckResult.abort
            "Unable to determine whether stopping the node will cause a loss of the quorum, use --force to override")
      ∧ (cluster_node_remove_quorum_guard force 0 dat none false
        = if force then CheckResult.proceed
          else CheckResult.abort
            ("Unable to determine whether removing the node will cause a loss of the quorum, use --force to override\n"
              ++ dat))
      ∧ (force = false →
          nodes.all (fun n => all_nodes.contains n) = true →
          all_nodes.all (fun n => nodes.contains n) = false →
          (∀ p ∈ probes, p.retval = 0 ∧ p.parsed = none) →
          (∃ p ∈ probes, p.offline = false) →
          stop_cluster_nodes_model force nodes all_nodes probes
            = (CheckResult.abort
                (stop_nodes_unable_msg (stop_nodes_unable_errors probes)), []))
      ∧ (force = true →
          nodes.all (fun n => all_nodes.contains n) = true →
          stop_cluster_nodes_model force nodes all_nodes probes
            = (CheckResult.proceed, stopEvents nodes)) := by
  intro force dat nodes all_nodes probes
  refine ⟨?_, ?_, ?_, ?_⟩
  · cases force <;> rfl
  · cases force <;> rfl
  · intro hf hknown hcov hall hex
    unfold stop_cluster_nodes_model
    rw [if_neg (by rw [hknown]; decide)]
    rw [if_pos ⟨hf, hcov⟩]
    rw [stop_nodes_quorum_loop_undeterminable probes [] hall]
    have hne : (stop_nodes_unable_errors probes).isEmpty = false := by
      rcases hex with ⟨p, hpm, hpo⟩
      have hmem : p ∈ probes.filter (fun q => !q.offline) :=
        List.mem_filter.mpr ⟨hpm, by simp [hpo]⟩
      cases hl : probes.filter (fun q => !q.offline) with
      | nil => rw [hl] at hmem; exact absurd hmem (List.not_mem_nil p)
      | cons a as => simp [stop_nodes_unable_errors, hl]
    simp [hne]
  · intro hf hknown
    unfold stop_cluster_nodes_model
    rw [if_neg (by rw [hknown]; decide)]
    rw [if_neg (by rw [hf]; simp)]

theorem quorum_undeterminable_requires_force_witness :
    stop_cluster_quorum_guard false none false
      = CheckResult.abort
        "Unable to determine whether stopping the node will cause a loss of the quorum, use --force to override"
    ∧ cluster_node_remove_quorum_guard false 0 "garbled" none false
      = CheckResult.abort
        ("Unable to determine whether removing the node will cause a loss of the quorum, use --force to override\n"
          ++ "garbled")
    ∧ stop_cluster_nodes_model false ["a"] ["a", "b"]
        [{ name := "a", retval := 0, data := "garbled", parsed := none, offline := false }]
      = (CheckResult.abort (stop_nodes_unable_msg ["Unable to get quorum status"]), [])
    ∧ stop_cluster_nodes_model true ["a"] ["a", "b"]
        [{ name := "a", retval := 0, data := "garbled", parsed := none, offline := false }]
      = (CheckResult.proceed, stopEvents ["a"]) :=
  ⟨(quorum_undeterminable_requires_force false "garbled" [] [] []).1,
   (quorum_undeterminable_requires_force false "garbled" [] [] []).2.1,
   (quorum_undeterminable_requires_force false "garbled" ["a"] ["a", "b"]
      [{ name := "a", retval := 0, data := "garbled", parsed := none, offline := false }]).2.2.1
      rfl rfl rfl (by decide)
      ⟨{ name := "a", retval := 0, data := "garbled", parsed := none, offline := false },
        by decide, rfl⟩,
   (quorum_undeterminable_requires_force true "garbled" ["a"] ["a", "b"]
      [{ name := "a", retval := 0, data := "garbled", parsed := none, offline := false }]).2.2.2
      rfl rfl⟩

theorem stop_nodes_quorum_loop_loss :
    ∀ (pre rest : List NodeProbe) (p : NodeProbe) (qi : QSnap),
      (∀ q ∈ pre, q.retval ≠ 0 ∨ q.parsed = none
        ∨ ∃ s, q.parsed = some s ∧ s.quorate = false) →
      p.retval = 0 → p.parsed = some qi → qi.quorate = true →
      qi.lossIfStopped = true →
      ∀ errors, stop_nodes_quorum_loop (pre ++ p :: rest) errors
        = CheckResult.abort stop_nodes_loss_msg := by
  intro pre
  induction pre with
  | nil =>
    intro rest p qi _ hr hp hq hl errors
    show stop_nodes_quorum_loop (p :: rest) errors = CheckResult.abort stop_nodes_loss_msg
    unfold stop_nodes_quorum_loop
    rw [if_neg (by simp [hr])]
    rw [hp]
    show (if qi.quorate = false then stop_nodes_quorum_loop rest errors
      else if qi.lossIfStopped = true then CheckResult.abort stop_nodes_loss_msg
      else CheckResult.proceed) = CheckResult.abort stop_nodes_loss_msg
    rw [if_neg (by simp [hq])]
    rw [if_pos hl]
  | cons q pre' ih =>
    intro rest p qi hall hr hp hq hl errors
    have hq' := hall q (List.mem_cons_self q pre')
    have hall' : ∀ x ∈ pre', x.retval ≠ 0 ∨ x.parsed = none
        ∨ ∃ s, x.parsed = some s ∧ s.quorate = false :=
      fun x hx => hall x (List.mem_cons.mpr (Or.inr hx))
    show stop_nodes_quorum_loop (q :: (pre' ++ p :: rest)) errors
      = CheckResult.abort stop_nodes_loss_msg
    by_cases hqr : q.retval = 0
    · unfold stop_nodes_quorum_loop
      rw [if_neg (by simp [hqr])]
      rcases hq' with hq' | hq' | ⟨s, hs, hsq⟩
      · exact absurd hqr hq'
      · rw [hq']
        show (if q.offline = false then
            stop_nodes_quorum_loop (pre' ++ p :: rest)
              (errors ++ ["Unable to get quorum status"])
          else stop_nodes_quorum_loop (pre' ++ p :: rest) errors)
          = CheckResult.abort stop_nodes_loss_msg
        cases hqo : q.offline with
        | false =>
          rw [if_pos rfl]
          exact ih rest p qi hall' hr hp hq hl _
        | true =>
          rw [if_neg (by simp)]
          exact ih rest p qi hall' hr hp hq hl _
      · rw [hs]
        show (if s.quorate = false then stop_nodes_quorum_loop (pre' ++ p :: rest) errors
          else if s.lossIfStopped = true then CheckResult.abort stop_nodes_loss_msg
          else CheckResult.proceed) = CheckResult.abort stop_nodes_loss_msg
        rw [if_pos hsq]
        exact ih rest p qi hall' hr hp hq hl _
    · unfold stop_nodes_quorum_loop
      rw [if_pos hqr]
      exact ih rest p qi hall' hr hp hq hl _

/-- C5: the fleet-wide stop skips the quorum-loss safety check exactly
when forced or when the requested node set covers the entire known
membership (in which case it proceeds to the stop operations regardless
of the quorum probes); otherwise the check runs, and an aborting check —
in particular a predicted quorum loss reached in the loop — is a fatal
error with no stop operation issued. -/
theorem stop_all_skips_quorum_check :
    ∀ (force : Bool) (nodes all_nodes : List String)
      (probes pre rest : List NodeProbe) (p : NodeProbe) (qi : QSnap),
      (nodes.all (fun n => all_nodes.contains n) = true →
        ((force = true ∨ all_nodes.all (fun n => nodes.contains n) = true) →
          stop_cluster_nodes_model force nodes all_nodes probes
            = (CheckResult.proceed, stopEvents nodes))
        ∧ (force = false → all_nodes.all (fun n => nodes.contains n) = false →
          (stop_cluster_nodes_model force nodes all_nodes probes).1
              = stop_nodes_quorum_loop probes []
          ∧ ∀ m, stop_nodes_quorum_loop probes [] = CheckResult.abort m →
            stop_cluster_nodes_model force nodes all_nodes probes
              = (CheckResult.abort m, [])))
      ∧ ((∀ q ∈ pre, q.retval ≠ 0 ∨ q.parsed = none
            ∨ ∃ s, q.parsed = some s ∧ s.quorate = false) →
          p.retval = 0 → p.parsed = some qi → qi.quorate = true →
          qi.lossIfStopped = true →
          ∀ errors, stop_nodes_quorum_loop (pre ++ p :: rest) errors
            = CheckResult.abort stop_nodes_loss_msg) := by
  intro force nodes all_nodes probes pre rest p qi
  constructor
  · intro hknown
    constructor
    · intro h
      unfold stop_cluster_nodes_model
      rw [if_neg (by rw [hknown]; decide)]
      rcases h with h | h
      · rw [if_neg (by rw [h]; simp)]
      · rw [if_neg (by rw [h]; simp)]
    · intro hf hcov
      have hrw : ∀ r : CheckResult,
          stop_nodes_quorum_loop probes [] = r →
          stop_cluster_nodes_model force nodes all_nodes probes
            = (match r with
              | CheckResult.abort m => (CheckResult.abort m, [])
              | CheckResult.proceed => (CheckResult.proceed, stopEvents nodes)) := by
        intro r hr
        unfold stop_cluster_nodes_model
        rw [if_neg (by rw [hknown]; decide)]
        rw [if_pos ⟨hf, hcov⟩]
        rw [hr]
      constructor
      · cases hl : stop_nodes_quorum_loop probes [] with
        | proceed => rw [hrw _ hl]
        | abort m => rw [hrw _ hl]
      · intro m hm
        rw [hrw _ hm]
  · exact stop_nodes_quorum_loop_loss pre rest p qi

theorem stop_all_skips_quorum_check_witness :
    stop_cluster_nodes_model false ["b", "a"] ["a", "b"]
        [{ name := "a", retval := 1, data := "down", parsed := none, offline := false }]
      = (CheckResult.proceed, stopEvents ["b", "a"])
    ∧ stop_nodes_quorum_loop
        [{ name := "a", retval := 0, data := "ok",
           parsed := some { quorate := true, lossIfStopped := true }, offline := false }]
        []
      = CheckResult.abort stop_nodes_loss_msg :=
  ⟨((stop_all_skips_quorum_check false ["b", "a"] ["a", "b"]
      [{ name := "a", retval := 1, data := "down", parsed := none, offline := false }]
      [] [] { name := "", retval := 0, data := "", parsed := none, offline := false }
      { quorate := true, lossIfStopped := true }).1 (by decide)).1
      (Or.inr (by decide)),
   (stop_all_skips_quorum_check false [] []
      [] []
      []
      { name := "a", retval := 0, data := "ok",
        parsed := some { quorate := true, lossIfStopped := true }, offline := false }
      { quorate := true, lossIfStopped := true }).2
      (by intro q hq; exact absurd hq (List.not_mem_nil q))
      rfl rfl rfl rfl []⟩

/-- The configuration distributed after the add-node push loop: the
output of the last successful push, if any (mirrors the `corosync_conf`
variable of `cluster_node`). -/
def lastAccepted (conf : Option String) : List PushResult → Option String
  | [] => conf
  | r :: rest => lastAccepted (if r.retval ≠ 0 then conf else some r.output) rest

theorem add_node_push_loop_spec :
    ∀ (node0 : String) (results : List PushResult) (conf : Option String)
      (warnings : List String),
      add_node_push_loop node0 conf warnings results
        = (lastAccepted conf results,
          warnings ++ (results.filter (fun r => r.retval != 0)).map (add_node_fail_msg node0)) := by
  intro node0 results
  induction results with
  | nil =>
    intro conf warnings
    simp [add_node_push_loop, lastAccepted]
  | cons r rest ih =>
    intro conf warnings
    by_cases hr : r.retval = 0
    · simp [add_node_push_loop, lastAccepted, hr, ih]
    · simp [add_node_push_loop, lastAccepted, hr, ih]

theorem lastAccepted_some :
    ∀ (results : List PushResult) (c : String),
      ∃ d, lastAccepted (some c) results = some d := by
  intro results
  induction results with
  | nil => intro c; exact ⟨c, rfl⟩
  | cons r rest ih =>
    intro c
    by_cases hr : r.retval = 0
    · simpa [lastAccepted, hr] using ih r.output
    · simpa [lastAccepted, hr] using ih c

theorem lastAccepted_none_iff :
    ∀ results : List PushResult,
      (lastAccepted none results = none ↔ ∀ r ∈ results, r.retval ≠ 0) := by
  intro results
  induction results with
  | nil => simp [lastAccepted]
  | cons r rest ih =>
    by_cases hr : r.retval = 0
    · rcases lastAccepted_some rest r.output with ⟨d, hd⟩
      simp only [lastAccepted, hr]
      rw [if_neg (by simp [hr])]
      rw [hd]
      constructor
      · intro h
        exact absurd h (by simp)
      · intro h
        exact absurd hr (h r (List.mem_cons_self r rest))
    · simp only [lastAccepted]
      rw [if_pos hr]
      rw [ih]
      constructor
      · intro h
        intro x hx
        rcases List.mem_cons.mp hx with hx | hx
        · rw [hx]; exact hr
        · exact h x hx
      · intro h x hx
        exact h x (List.mem_cons.mpr (Or.inr hx))

/-- C3: after the add-node membership push fan to the existing members,
the transaction is fatal ("Unable to update any nodes") exactly when no
member accepted the update; with at least one acceptance it continues
with the updated configuration, and the per-member failures are reported
as the non-fatal message list. -/
theorem add_node_acceptance_policy :
    ∀ (node0 : String) (results : List PushResult),
      ((cluster_node_add_push node0 results).1
          = AddNodeOutcome.fatal "Unable to update any nodes"
        ↔ ∀ r ∈ results, r.retval ≠ 0)
      ∧ ((∃ r ∈ results, r.retval = 0) →
          ∃ conf, (cluster_node_add_push node0 results).1
            = AddNodeOutcome.continueWith conf)
      ∧ ((cluster_node_add_push node0 results).2
        = (results.filter (fun r => r.retval != 0)).map (add_node_fail_msg node0)) := by
  intro node0 results
  have hspec := add_node_push_loop_spec node0 results none []
  cases hl : lastAccepted none results with
  | none =>
    have hout : cluster_node_add_push node0 results
        = (AddNodeOutcome.fatal "Unable to update any nodes",
          (results.filter (fun r => r.retval != 0)).map (add_node_fail_msg node0)) := by
      unfold cluster_node_add_push
      rw [hspec, hl]
      rfl
    refine ⟨?_, ?_, ?_⟩
    · rw [hout]
      constructor
      · intro _
        exact (lastAccepted_none_iff results).mp hl
      · intro _
        rfl
    · intro hex
      rcases hex with ⟨r, hrm, hr0⟩
      exact absurd hr0 ((lastAccepted_none_iff results).mp hl r hrm)
    · rw [hout]
  | some conf =>
    have hout : cluster_node_add_push node0 results
        = (AddNodeOutcome.continueWith conf,
          (results.filter (fun r => r.retval != 0)).map (add_node_fail_msg node0)) := by
      unfold cluster_node_add_push
      rw [hspec, hl]
      rfl
    refine ⟨?_, ?_, ?_⟩
    · rw [hout]
      constructor
      · intro h
        exact absurd h (by simp)
      · intro h
        have := (lastAccepted_none_iff results).mpr h
        rw [hl] at this
        exact absurd this (by simp)
    · intro _
      exact ⟨conf, by rw [hout]⟩
    · rw [hout]

theorem add_node_acceptance_policy_witness :
    ∃ conf,
      (cluster_node_add_push "n3"
        [{ node := "m1", retval := 1, output := "nope" },
         { node := "m2", retval := 0, output := "newconf" }]).1
        = AddNodeOutcome.continueWith conf :=
  (add_node_acceptance_policy "n3"
    [{ node := "m1", retval := 1, output := "nope" },
     { node := "m2", retval := 0, output := "newconf" }]).2.1
    ⟨{ node := "m2", retval := 0, output := "newconf" }, by decide, rfl⟩

theorem get_append_mem_right {α : Type} (A B : List α) (i : Nat)
    (hi : i < (A ++ B).length) (h : A.length ≤ i) :
    (A ++ B).get ⟨i, hi⟩ ∈ B := by
  induction A generalizing i with
  | nil =>
    exact List.get_mem B i hi
  | cons a A ih =>
    cases i with
    | zero => exact absurd h (by simp)
    | succ i =>
      exact ih i (by simpa using hi) (by simpa using h)

theorem get_append_mem_left {α : Type} (A B : List α) (j : Nat)
    (hj : j < (A ++ B).length) (h : j < A.length) :
    (A ++ B).get ⟨j, hj⟩ ∈ A := by
  induction A generalizing j with
  | nil => exact absurd h (by simp)
  | cons a A ih =>
    cases j with
    | zero => exact List.mem_cons_self a A
    | succ j =>
      exact List.mem_cons.mpr (Or.inr (ih j (by simpa using hj) (by simpa using h)))

theorem stop_destroy_before_removal_index {A B : List NodeEvent}
    (hB : ∀ e ∈ B, e.isStopOrDestroy = false)
    (hA : ∀ e ∈ A, e.isMembershipRemoval = false)
    (i j : Nat) (hi : i < (A ++ B).length) (hj : j < (A ++ B).length)
    (h1 : ((A ++ B).get ⟨i, hi⟩).isStopOrDestroy = true)
    (h2 : ((A ++ B).get ⟨j, hj⟩).isMembershipRemoval = true) : i < j := by
  have hiA : i < A.length := by
    rcases Nat.lt_or_ge i A.length with h | h
    · exact h
    · have hmem := get_append_mem_right A B i hi h
      rw [hB _ hmem] at h1
      exact absurd h1 (by simp)
  have hjA : A.length ≤ j := by
    rcases Nat.lt_or_ge j A.length with h | h
    · have hmem := get_append_mem_left A B j hj h
      rw [hA _ hmem] at h2
      exact absurd h2 (by simp)
    · exact h
  omega

/-- C4: in the remove-node flow, every stop/destroy of the target node's
own cluster services occurs strictly before every membership-removal push
to a remaining member: in the issued operation sequence, any stop/destroy
event has a smaller index than any membership-removal event. -/
theorem remove_node_stop_before_membership_push :
    ∀ (node0 : String) (c_nodes : List String) (i j : Nat)
      (hi : i < (cluster_node_remove_trace node0 c_nodes).length)
      (hj : j < (cluster_node_remove_trace node0 c_nodes).length),
      ((cluster_node_remove_trace node0 c_nodes).get ⟨i, hi⟩).isStopOrDestroy = true →
      ((cluster_node_remove_trace node0 c_nodes).get ⟨j, hj⟩).isMembershipRemoval = true →
      i < j := by
  intro node0 c_nodes i j hi hj h1 h2
  have hB : ∀ e ∈ ((c_nodes.filter (fun n => !(n == node0))).map
        (fun n => NodeEvent.removeLocalNode n node0)
      ++ [NodeEvent.reloadCorosync, NodeEvent.crmNodeRemove node0]),
      e.isStopOrDestroy = false := by
    intro e he
    rcases List.mem_append.mp he with he | he
    · rcases List.mem_map.mp he with ⟨n, _, rfl⟩
      rfl
    · rcases List.mem_cons.mp he with he | he
      · rw [he]; rfl
      · rcases List.mem_cons.mp he with he | he
        · rw [he]; rfl
        · exact absurd he (List.not_mem_nil e)
  have hA : ∀ e ∈ destroy_cluster_trace [node0], e.isMembershipRemoval = false := by
    intro e he
    unfold destroy_cluster_trace at he
    rcases List.mem_append.mp he with he | he
    · rcases List.mem_map.mp he with ⟨n, _, rfl⟩
      rfl
    · rcases List.mem_map.mp he with ⟨n, _, rfl⟩
      rfl
  exact stop_destroy_before_removal_index hB hA i j hi hj h1 h2

theorem remove_node_stop_before_membership_push_witness :
    ((cluster_node_remove_trace "a" ["a", "b"]).get ⟨0, by decide⟩).isStopOrDestroy = true
    ∧ ((cluster_node_remove_trace "a" ["a", "b"]).get ⟨2, by decide⟩).isMembershipRemoval = true
    ∧ 0 < 2 :=
  ⟨by decide, by decide,
   remove_node_stop_before_membership_push "a" ["a", "b"] 0 2
     (by decide) (by decide) (by decide) (by decide)⟩

end PcsCluster
